import Mathlib

/-!
Verification development for the Rune FFI interface (include/rune.h).

The repository ships the C ABI header only; the engine implementation behind
it (registry, dispatch) is not part of the sources.  Data types, version
constants and the convenience macros below are translated directly from
include/rune.h.  The engine operations are modelled from the specification,
as marked by their doc comments.

Modelling conventions:
* a byte string crossing the boundary (a `const char*` plus a `size_t`
  length) is a `List Nat` of bytes; a possibly-NULL pointer is an `Option`;
* the opaque engine handle is modelled by its state (the registry); the
  claims under verification quantify over valid handles only, so the
  invalid-handle escape hatch (NULL return / undefined behaviour) stays
  outside the state model;
* macro evaluation that may dereference a NULL pointer is modelled in
  `Except Unit`, where `Except.error ()` marks a NULL dereference
  (undefined behaviour in C) and `Except.ok v` a completed evaluation
  yielding `v`.
-/

namespace Rune

/-- Byte strings passed across the boundary as pointer/length pairs. -/
abbrev Bytes := List Nat

/-- Error codes, from `enum RuneError` in include/rune.h. -/
inductive RuneError where
  | RUNE_SUCCESS
  | RUNE_INVALID_ARGUMENT
  | RUNE_OUT_OF_MEMORY
  | RUNE_TOOL_NOT_FOUND
  | RUNE_EXECUTION_FAILED
  | RUNE_VERSION_MISMATCH
  | RUNE_THREAD_SAFETY_VIOLATION
  | RUNE_IO_ERROR
  | RUNE_PERMISSION_DENIED
  | RUNE_TIMEOUT
  | RUNE_UNKNOWN_ERROR
  deriving DecidableEq

/-- Numeric values of the error codes as fixed in include/rune.h. -/
def RuneError.code : RuneError → Int
  | .RUNE_SUCCESS => 0
  | .RUNE_INVALID_ARGUMENT => -1
  | .RUNE_OUT_OF_MEMORY => -2
  | .RUNE_TOOL_NOT_FOUND => -3
  | .RUNE_EXECUTION_FAILED => -4
  | .RUNE_VERSION_MISMATCH => -5
  | .RUNE_THREAD_SAFETY_VIOLATION => -6
  | .RUNE_IO_ERROR => -7
  | .RUNE_PERMISSION_DENIED => -8
  | .RUNE_TIMEOUT => -9
  | .RUNE_UNKNOWN_ERROR => -99

/-- The `RuneResult` structure of include/rune.h: success flag, error
classification, data payload and error message, each payload a pointer
(`Option Bytes`, `none` for NULL) with an explicit byte length. -/
structure RuneResult where
  success : Bool
  error_code : RuneError
  data : Option Bytes
  data_len : Nat
  error_message : Option Bytes
  error_len : Nat
  deriving DecidableEq

/-- The `RuneVersion` structure of include/rune.h. -/
structure RuneVersion where
  major : Nat
  minor : Nat
  patch : Nat
  deriving DecidableEq

/-- The `RuneToolInfo` structure of include/rune.h: tool name and optional
description, each with an explicit byte length. -/
structure RuneToolInfo where
  name : Bytes
  name_len : Nat
  description : Option Bytes
  description_len : Nat
  deriving DecidableEq

/-- `RUNE_VERSION_MAJOR`, from include/rune.h line 24. -/
def RUNE_VERSION_MAJOR : Nat := 0

/-- `RUNE_VERSION_MINOR`, from include/rune.h line 25. -/
def RUNE_VERSION_MINOR : Nat := 1

/-- `RUNE_VERSION_PATCH`, from include/rune.h line 26. -/
def RUNE_VERSION_PATCH : Nat := 0

/-- Macro `RUNE_SUCCEEDED(err)`: `(err) == RUNE_SUCCESS`. -/
def RUNE_SUCCEEDED (err : RuneError) : Bool :=
  err = RuneError.RUNE_SUCCESS

/-- Macro `RUNE_FAILED(err)`: `(err) != RUNE_SUCCESS`. -/
def RUNE_FAILED (err : RuneError) : Bool :=
  ¬ (err = RuneError.RUNE_SUCCESS)

/-- Macro `RUNE_RESULT_SUCCEEDED(result)`: `(result) && (result)->success`.
The C `&&` short-circuits, so a NULL `result` yields false with no
dereference. -/
def RUNE_RESULT_SUCCEEDED (result : Option RuneResult) : Bool :=
  match result with
  | none => false
  | some r => r.success

/-- Macro `RUNE_RESULT_DATA(result)`:
`RUNE_RESULT_SUCCEEDED(result) ? (result)->data : NULL`.
The dereference in the then-branch only happens when the guard held, which
requires a non-NULL `result`. -/
def RUNE_RESULT_DATA (result : Option RuneResult) : Except Unit (Option Bytes) :=
  if RUNE_RESULT_SUCCEEDED result then
    match result with
    | none => Except.error ()
    | some r => Except.ok r.data
  else
    Except.ok none

/-- Macro `RUNE_RESULT_DATA_LEN(result)`:
`RUNE_RESULT_SUCCEEDED(result) ? (result)->data_len : 0`. -/
def RUNE_RESULT_DATA_LEN (result : Option RuneResult) : Except Unit Nat :=
  if RUNE_RESULT_SUCCEEDED result then
    match result with
    | none => Except.error ()
    | some r => Except.ok r.data_len
  else
    Except.ok 0

/-- Macro `RUNE_RESULT_ERROR(result)`:
`((!RUNE_RESULT_SUCCEEDED(result)) && (result)->error_message) ? (result)->error_message : NULL`.
For a NULL `result` the first conjunct of the guard is TRUE (a NULL result
does not satisfy `RUNE_RESULT_SUCCEEDED`), so the second conjunct
`(result)->error_message` is evaluated and dereferences the NULL pointer:
that evaluation is `Except.error ()` here. -/
def RUNE_RESULT_ERROR (result : Option RuneResult) : Except Unit (Option Bytes) :=
  if ! RUNE_RESULT_SUCCEEDED result then
    match result with
    | none => Except.error ()
    | some r =>
      Except.ok (if r.error_message.isSome then r.error_message else none)
  else
    Except.ok none

/-- Modelled from the spec: one entry of the tool registry (the engine
implementation behind include/rune.h is not among the sources).  Per §3, a
ToolRecord is a unique name and an optional description, both immutable;
the executable behaviour is an external collaborator and is passed to the
execution model as a parameter. -/
structure ToolRecord where
  name : Bytes
  description : Option Bytes
  deriving DecidableEq

/-- Modelled from the spec: the engine context behind the opaque
`RuneHandle` owns the ordered tool registry (§3, §4.2); enumeration order
equals registration order, so the registry is the list of records in
registration order. -/
structure Engine where
  tools : List ToolRecord
  deriving DecidableEq

/-- Whether a name is already present in the registry (exact byte match). -/
def toolRegistered (h : Engine) (name : Bytes) : Bool :=
  h.tools.any fun t => t.name = name

/-- Modelled from the spec: the classification `rune_register_tool`
returns on a name collision.  Spec §4.2 fixes only that it is distinct
from the invalid-argument classification; the header enum has no
dedicated collision code, so the model picks `RUNE_EXECUTION_FAILED`. -/
def collisionError : RuneError := RuneError.RUNE_EXECUTION_FAILED

/-- Modelled from the spec: `rune_register_tool` (declared in
include/rune.h lines 122-128, implementation not among the sources).
Spec §4.2: validates the name is non-empty and not already present;
rejects malformed input with the invalid-argument classification and a
collision with a distinct classification; on success stores a new
ToolRecord at the end of the registry.  Returns the error code and the
engine state after the call. -/
def rune_register_tool (h : Engine) (name : Bytes) (description : Option Bytes) :
    RuneError × Engine :=
  if name.isEmpty then
    (RuneError.RUNE_INVALID_ARGUMENT, h)
  else if toolRegistered h name then
    (collisionError, h)
  else
    (RuneError.RUNE_SUCCESS, ⟨h.tools ++ [⟨name, description⟩]⟩)

/-- Modelled from the spec: `rune_get_tool_count` (include/rune.h line
135, implementation not among the sources).  Spec §4.2: returns the
current registry size. -/
def rune_get_tool_count (h : Engine) : Nat :=
  h.tools.length

/-- Modelled from the spec: `rune_get_tool_info` (include/rune.h lines
144-148, implementation not among the sources).  Spec §4.2: the index is
0-based and must be below the tool count; an out-of-range index yields an
invalid-argument error and `out_info` is not filled (modelled by the
error carrying no `RuneToolInfo`); otherwise the registered metadata is
returned with explicit byte lengths. -/
def rune_get_tool_info (h : Engine) (index : Nat) :
    Except RuneError RuneToolInfo :=
  match h.tools.get? index with
  | none => Except.error RuneError.RUNE_INVALID_ARGUMENT
  | some t =>
    Except.ok ⟨t.name, t.name.length, t.description, (t.description.getD []).length⟩

/-- Modelled from the spec: the outcome a tool's externally implemented
behaviour produces (§4.3: a produced payload, or a thrown/returned
failure with a classification and message).  Tool implementations are
out of scope, so the execution model takes the behaviour as a parameter. -/
inductive ToolOutcome where
  | payload (data : Bytes)
  | failure (code : RuneError) (message : Bytes)
  deriving DecidableEq

/-- The externally supplied behaviour of the registered tools: given the
tool's record and the opaque parameter payload (NULL allowed), an outcome. -/
def ToolBehavior : Type :=
  ToolRecord → Option Bytes → ToolOutcome

/-- Modelled from the spec: how the engine wraps a tool's outcome into a
ResultObject (§3, §4.3): on a payload, success with the data populated
and its exact byte length; on a failure, a failed result with the
classification and the message populated with its exact byte length. -/
def wrapOutcome : ToolOutcome → RuneResult
  | ToolOutcome.payload d => ⟨true, RuneError.RUNE_SUCCESS, some d, d.length, none, 0⟩
  | ToolOutcome.failure c m => ⟨false, c, none, 0, some m, m.length⟩

/-- Modelled from the spec: the human-readable message of the
tool-not-found result (§7 requires a message; its exact text is not
fixed by the spec).  The bytes spell out the words tool not found. -/
def toolNotFoundMessage : Bytes :=
  [116, 111, 111, 108, 32, 110, 111, 116, 32, 102, 111, 117, 110, 100]

/-- Modelled from the spec: the failed ResultObject produced for an
unregistered name (§4.3): success false, classification tool-not-found,
no data, error message populated with its exact byte length. -/
def notFoundResult : RuneResult :=
  ⟨false, RuneError.RUNE_TOOL_NOT_FOUND, none, 0,
    some toolNotFoundMessage, toolNotFoundMessage.length⟩

/-- Modelled from the spec: `rune_execute_tool` (include/rune.h lines
163-169, implementation not among the sources).  Spec §4.3: looks up the
name in the registry by exact match; if absent, produces a failed
ResultObject tagged tool-not-found (not a NULL return); otherwise invokes
the tool's behaviour with the opaque parameter payload and wraps its
outcome.  The NULL return (`none`) is reserved for engine-level failure
(invalid handle, allocation failure), which lies outside this state
model of a valid handle. -/
def rune_execute_tool (behavior : ToolBehavior) (h : Engine)
    (name : Bytes) (params_json : Option Bytes) : Option RuneResult :=
  match h.tools.find? (fun t => t.name = name) with
  | some t => some (wrapOutcome (behavior t params_json))
  | none => some notFoundResult

/-- Modelled from the spec: `rune_get_version` (include/rune.h line 107,
implementation not among the sources).  Spec §4.1: pure, stateless,
always succeeds; the triple is the header's compile-time constants.  The
model threads an arbitrary world state explicitly so that statelessness
is expressible: the call returns the world unchanged. -/
def rune_get_version {σ : Type} (world : σ) : RuneVersion × σ :=
  (⟨RUNE_VERSION_MAJOR, RUNE_VERSION_MINOR, RUNE_VERSION_PATCH⟩, world)

/-- Well-formedness of a ResultObject (spec §3): exactly one of the data
payload and the error message is populated, consistently with the
success flag, and the corresponding length field is the exact byte
length of the populated field. -/
def resultWellFormed (r : RuneResult) : Prop :=
  (r.success = true →
     r.data.isSome = true ∧ r.error_message = none ∧
     r.data_len = (r.data.getD []).length) ∧
  (r.success = false →
     r.data = none ∧ r.error_message.isSome = true ∧
     r.error_len = (r.error_message.getD []).length)

instance (r : RuneResult) : Decidable (resultWellFormed r) := by
  unfold resultWellFormed
  infer_instance

/-- Helper: unfolding `rune_get_tool_info` on an explicitly built engine. -/
theorem get_tool_info_mk (l : List ToolRecord) (i : Nat) :
    rune_get_tool_info ⟨l⟩ i
      = match l.get? i with
        | none => Except.error RuneError.RUNE_INVALID_ARGUMENT
        | some t =>
          Except.ok ⟨t.name, t.name.length, t.description, (t.description.getD []).length⟩ :=
  rfl

/-- Helper: wrapping any tool outcome yields a well-formed ResultObject. -/
theorem wrapOutcome_wellFormed (o : ToolOutcome) :
    resultWellFormed (wrapOutcome o) := by
  cases o <;> simp [wrapOutcome, resultWellFormed]

/-- Helper: the tool-not-found ResultObject is well formed. -/
theorem notFoundResult_wellFormed : resultWellFormed notFoundResult := by
  decide

/-- Helper: a name absent from the registry is not found by the lookup. -/
theorem find_none_of_not_registered (h : Engine) (name : Bytes)
    (hreg : toolRegistered h name = false) :
    h.tools.find? (fun t => t.name = name) = none := by
  rw [List.find?_eq_none]
  intro x hx
  unfold toolRegistered at hreg
  rw [List.any_eq_false] at hreg
  exact hreg x hx

/-- Claim C1: for every valid engine and name absent from the registry,
`rune_execute_tool` returns a non-null ResultObject whose success flag is
false and whose classification is `RUNE_TOOL_NOT_FOUND`; a null return
never occurs for a not-found name. -/
theorem execute_tool_not_found (behavior : ToolBehavior) (h : Engine)
    (name : Bytes) (params : Option Bytes)
    (habs : toolRegistered h name = false) :
    rune_execute_tool behavior h name params = some notFoundResult ∧
    notFoundResult.success = false ∧
    notFoundResult.error_code = RuneError.RUNE_TOOL_NOT_FOUND ∧
    rune_execute_tool behavior h name params ≠ none := by
  have hf := find_none_of_not_registered h name habs
  have hcall : rune_execute_tool behavior h name params = some notFoundResult := by
    unfold rune_execute_tool
    rw [hf]
  refine ⟨hcall, rfl, rfl, ?_⟩
  rw [hcall]
  simp

/-- Witness for claim C1 at a concrete engine and name. -/
theorem execute_tool_not_found_witness :
    toolRegistered ⟨[]⟩ [103] = false ∧
    (rune_execute_tool (fun _ _ => ToolOutcome.payload []) ⟨[]⟩ [103] none
        = some notFoundResult ∧
      notFoundResult.success = false ∧
      notFoundResult.error_code = RuneError.RUNE_TOOL_NOT_FOUND ∧
      rune_execute_tool (fun _ _ => ToolOutcome.payload []) ⟨[]⟩ [103] none ≠ none) :=
  ⟨by decide,
    execute_tool_not_found (fun _ _ => ToolOutcome.payload []) ⟨[]⟩ [103] none (by decide)⟩

/-- Claim C2: every ResultObject produced by an execution has exactly one
of the data payload and the error message populated, consistently with
the success flag, and the corresponding length field equals the byte
length of the populated field. -/
theorem execute_result_wellFormed (behavior : ToolBehavior) (h : Engine)
    (name : Bytes) (params : Option Bytes) (r : RuneResult)
    (hr : rune_execute_tool behavior h name params = some r) :
    resultWellFormed r := by
  unfold rune_execute_tool at hr
  cases hfind : h.tools.find? (fun t => t.name = name) with
  | some t =>
    rw [hfind] at hr
    cases hr
    exact wrapOutcome_wellFormed _
  | none =>
    rw [hfind] at hr
    cases hr
    exact notFoundResult_wellFormed

/-- Witness for claim C2 at a concrete execution. -/
theorem execute_result_wellFormed_witness :
    rune_execute_tool (fun _ _ => ToolOutcome.payload []) ⟨[]⟩ [103] none
        = some notFoundResult ∧
    resultWellFormed notFoundResult :=
  ⟨rfl,
    execute_result_wellFormed (fun _ _ => ToolOutcome.payload []) ⟨[]⟩ [103] none
      notFoundResult rfl⟩

/-- Claim C3: `rune_register_tool` rejects an empty name with
`RUNE_INVALID_ARGUMENT` and an already-registered name with a distinct
collision classification; in both rejection cases the registry is
unchanged, so the tool count after the rejected call equals the tool
count before it. -/
theorem register_tool_rejections (h : Engine) (name : Bytes)
    (description : Option Bytes) :
    (name = [] →
       rune_register_tool h name description = (RuneError.RUNE_INVALID_ARGUMENT, h) ∧
       rune_get_tool_count (rune_register_tool h name description).2
         = rune_get_tool_count h) ∧
    (toolRegistered h name = true → name ≠ [] →
       (rune_register_tool h name description).1 = collisionError ∧
       collisionError ≠ RuneError.RUNE_INVALID_ARGUMENT ∧
       (rune_register_tool h name description).2 = h ∧
       rune_get_tool_count (rune_register_tool h name description).2
         = rune_get_tool_count h) := by
  constructor
  · intro hname
    subst hname
    have hcall : rune_register_tool h [] description
        = (RuneError.RUNE_INVALID_ARGUMENT, h) := by
      simp [rune_register_tool]
    exact ⟨hcall, by rw [hcall]⟩
  · intro hreg hname
    have hne : name.isEmpty = false := by
      cases name with
      | nil => exact absurd rfl hname
      | cons a l => rfl
    have hcall : rune_register_tool h name description = (collisionError, h) := by
      simp [rune_register_tool, hne, hreg]
    rw [hcall]
    exact ⟨rfl, by decide, rfl, rfl⟩

/-- Witness for claim C3: the empty name on an empty engine, and a
colliding name on a one-tool engine. -/
theorem register_tool_rejections_witness :
    (rune_register_tool ⟨[]⟩ [] none = (RuneError.RUNE_INVALID_ARGUMENT, ⟨[]⟩) ∧
      rune_get_tool_count (rune_register_tool ⟨[]⟩ [] none).2
        = rune_get_tool_count ⟨[]⟩) ∧
    ((rune_register_tool ⟨[⟨[7], none⟩]⟩ [7] none).1 = collisionError ∧
      collisionError ≠ RuneError.RUNE_INVALID_ARGUMENT ∧
      (rune_register_tool ⟨[⟨[7], none⟩]⟩ [7] none).2 = ⟨[⟨[7], none⟩]⟩ ∧
      rune_get_tool_count (rune_register_tool ⟨[⟨[7], none⟩]⟩ [7] none).2
        = rune_get_tool_count ⟨[⟨[7], none⟩]⟩) :=
  ⟨(register_tool_rejections ⟨[]⟩ [] none).1 rfl,
    (register_tool_rejections ⟨[⟨[7], none⟩]⟩ [7] none).2 (by decide) (by decide)⟩

/-- Claim C4: a successful registration of a fresh non-empty name
increases the tool count by exactly one, `rune_get_tool_info` at the new
index returns exactly the registered name and description with their
byte lengths, and the previously registered tools keep their indices
(enumeration order equals registration order). -/
theorem register_tool_success (h : Engine) (name : Bytes)
    (description : Option Bytes) (hname : name ≠ [])
    (hfresh : toolRegistered h name = false) :
    (rune_register_tool h name description).1 = RuneError.RUNE_SUCCESS ∧
    rune_get_tool_count (rune_register_tool h name description).2
      = rune_get_tool_count h + 1 ∧
    rune_get_tool_info (rune_register_tool h name description).2
        (rune_get_tool_count h)
      = Except.ok ⟨name, name.length, description, (description.getD []).length⟩ ∧
    (∀ i, i < rune_get_tool_count h →
       rune_get_tool_info (rune_register_tool h name description).2 i
         = rune_get_tool_info h i) := by
  have hni : name.isEmpty = false := by
    cases name with
    | nil => exact absurd rfl hname
    | cons a l => rfl
  have hfst : (rune_register_tool h name description).1 = RuneError.RUNE_SUCCESS := by
    simp [rune_register_tool, hni, hfresh]
  have hsnd : (rune_register_tool h name description).2
      = Engine.mk (h.tools ++ [⟨name, description⟩]) := by
    simp [rune_register_tool, hni, hfresh]
  have hlast : (h.tools ++ [(⟨name, description⟩ : ToolRecord)]).get? h.tools.length
      = some ⟨name, description⟩ := by
    rw [List.get?_eq_getElem?]
    exact List.getElem?_concat_length _ _
  refine ⟨hfst, ?_, ?_, ?_⟩
  · rw [hsnd]
    simp [rune_get_tool_count]
  · rw [hsnd, get_tool_info_mk]
    rw [show rune_get_tool_count h = h.tools.length from rfl]
    rw [hlast]
  · intro i hi
    rw [hsnd, get_tool_info_mk]
    unfold rune_get_tool_count at hi
    rw [List.get?_eq_getElem?, List.getElem?_append_left hi, ← List.get?_eq_getElem?]
    rfl

/-- Witness for claim C4: registering a fresh one-byte name with a
one-byte description on an empty engine. -/
theorem register_tool_success_witness :
    ([1] : Bytes) ≠ [] ∧ toolRegistered ⟨[]⟩ [1] = false ∧
    (rune_register_tool ⟨[]⟩ [1] (some [2])).1 = RuneError.RUNE_SUCCESS ∧
    rune_get_tool_count (rune_register_tool ⟨[]⟩ [1] (some [2])).2
      = rune_get_tool_count ⟨[]⟩ + 1 ∧
    rune_get_tool_info (rune_register_tool ⟨[]⟩ [1] (some [2])).2
        (rune_get_tool_count ⟨[]⟩)
      = Except.ok ⟨[1], 1, some [2], 1⟩ := by
  have hmain := register_tool_success ⟨[]⟩ [1] (some [2]) (by decide) (by decide)
  exact ⟨by decide, by decide, hmain.1, hmain.2.1, hmain.2.2.1⟩

/-- Claim C7: for every valid engine, `rune_get_tool_info` at an index at
or above the tool count yields the invalid-argument error without
producing tool metadata, and at every index strictly below the tool
count it succeeds. -/
theorem get_tool_info_range (h : Engine) (index : Nat) :
    (rune_get_tool_count h ≤ index →
       rune_get_tool_info h index = Except.error RuneError.RUNE_INVALID_ARGUMENT) ∧
    (index < rune_get_tool_count h →
       ∃ info, rune_get_tool_info h index = Except.ok info) := by
  constructor
  · intro hle
    unfold rune_get_tool_count at hle
    unfold rune_get_tool_info
    rw [List.get?_eq_none.mpr hle]
  · intro hlt
    unfold rune_get_tool_count at hlt
    unfold rune_get_tool_info
    cases hg : h.tools.get? index with
    | none =>
      rw [List.get?_eq_none] at hg
      omega
    | some t =>
      exact ⟨_, rfl⟩

/-- Witness for claim C7: the empty engine at index 0 (out of range) and
a one-tool engine at index 0 (in range). -/
theorem get_tool_info_range_witness :
    (rune_get_tool_count ⟨[]⟩ ≤ 0 ∧
      rune_get_tool_info ⟨[]⟩ 0 = Except.error RuneError.RUNE_INVALID_ARGUMENT) ∧
    (0 < rune_get_tool_count ⟨[⟨[7], none⟩]⟩ ∧
      ∃ info, rune_get_tool_info ⟨[⟨[7], none⟩]⟩ 0 = Except.ok info) :=
  ⟨⟨by decide, (get_tool_info_range ⟨[]⟩ 0).1 (by decide)⟩,
    ⟨by decide, (get_tool_info_range ⟨[⟨[7], none⟩]⟩ 0).2 (by decide)⟩⟩

/-- Counterexample to claim C6 at the NULL result pointer: the claim's
characterization of `RUNE_RESULT_ERROR` would make it yield NULL for a
NULL result (a NULL result does not indicate success and has no non-null
error message), but the macro's evaluation at NULL is a NULL dereference,
not a NULL yield. -/
theorem result_error_macro_null_counterexample :
    ¬ RUNE_RESULT_ERROR none = Except.ok none := by
  intro hcontra
  simp [RUNE_RESULT_ERROR, RUNE_RESULT_SUCCEEDED] at hcontra

/-- Claim C6 (amended to non-null results for the error accessor): the
convenience predicates are pure derivations of their inputs.  For every
error code, `RUNE_SUCCEEDED` holds exactly on `RUNE_SUCCESS`,
`RUNE_FAILED` exactly off it, and exactly one of the two holds.  For
every (possibly NULL) result pointer, `RUNE_RESULT_DATA` yields the data
pointer exactly when the result is non-null with success true and NULL
otherwise, and `RUNE_RESULT_DATA_LEN` yields the data length in that
case and 0 otherwise.  For every non-null result, `RUNE_RESULT_ERROR`
yields the error message exactly when the result does not indicate
success and the message is non-null, and NULL otherwise. -/
theorem convenience_predicates_characterization :
    (∀ e : RuneError,
       (RUNE_SUCCEEDED e = true ↔ e = RuneError.RUNE_SUCCESS) ∧
       (RUNE_FAILED e = true ↔ ¬ e = RuneError.RUNE_SUCCESS) ∧
       RUNE_FAILED e = ! RUNE_SUCCEEDED e) ∧
    (∀ p : Option RuneResult,
       RUNE_RESULT_DATA p
         = Except.ok (match p with
             | some r => if r.success then r.data else none
             | none => none) ∧
       RUNE_RESULT_DATA_LEN p
         = Except.ok (match p with
             | some r => if r.success then r.data_len else 0
             | none => 0)) ∧
    (∀ r : RuneResult,
       RUNE_RESULT_ERROR (some r)
         = Except.ok (if r.success = false ∧ r.error_message.isSome = true
             then r.error_message else none)) := by
  refine ⟨?_, ?_, ?_⟩
  · intro e
    cases e <;> exact ⟨by decide, by decide, by decide⟩
  · intro p
    cases p with
    | none => exact ⟨rfl, rfl⟩
    | some r =>
      cases hs : r.success <;>
        simp [RUNE_RESULT_DATA, RUNE_RESULT_DATA_LEN, RUNE_RESULT_SUCCEEDED, hs]
  · intro r
    cases hs : r.success <;> cases hm : r.error_message <;>
      simp [RUNE_RESULT_ERROR, RUNE_RESULT_SUCCEEDED, hs, hm]

/-- Claim C8: `rune_get_version` is pure and total: from every world
state it merely returns a version triple, mutating no state, and any two
calls (from arbitrary world states) return the same triple. -/
theorem get_version_pure_stateless :
    ∀ (σ τ : Type) (w : σ) (w2 : τ),
      (rune_get_version w).2 = w ∧
      (rune_get_version w).1 = (rune_get_version w2).1 :=
  fun _ _ _ _ => ⟨rfl, rfl⟩

/-- Claim C9: the triple returned by `rune_get_version` equals the
header's compile-time version constants, which are 0, 1 and 0. -/
theorem get_version_matches_constants :
    ∀ (σ : Type) (w : σ),
      (rune_get_version w).1
        = ⟨RUNE_VERSION_MAJOR, RUNE_VERSION_MINOR, RUNE_VERSION_PATCH⟩ ∧
      RUNE_VERSION_MAJOR = 0 ∧ RUNE_VERSION_MINOR = 1 ∧ RUNE_VERSION_PATCH = 0 :=
  fun _ _ => ⟨rfl, rfl, rfl, rfl⟩

/-- Counterexample to claim C10: applying `RUNE_RESULT_ERROR` to the NULL
result pointer dereferences it (the guard `!RUNE_RESULT_SUCCEEDED(result)`
is true for NULL, so `(result)->error_message` is evaluated), so this
macro is not NULL-safe. -/
theorem result_macros_null_deref_counterexample :
    RUNE_RESULT_ERROR none = Except.error () :=
  rfl

/-- Claim C10 (amended to the three NULL-safe macros):
`RUNE_RESULT_SUCCEEDED(NULL)` evaluates to false, `RUNE_RESULT_DATA(NULL)`
to NULL and `RUNE_RESULT_DATA_LEN(NULL)` to 0, each without dereferencing
the NULL pointer, while `RUNE_RESULT_ERROR(NULL)` dereferences it. -/
theorem result_macros_null_behavior :
    RUNE_RESULT_SUCCEEDED none = false ∧
    RUNE_RESULT_DATA none = Except.ok none ∧
    RUNE_RESULT_DATA_LEN none = Except.ok 0 ∧
    RUNE_RESULT_ERROR none = Except.error () :=
  ⟨rfl, rfl, rfl, rfl⟩

end Rune
